import Mathlib

/-!
# Verification of the tcex threat-intelligence transform engine

Shallow embedding of `tcex/api/tc/ti_transform/ti_transform.py` and
`tcex/api/tc/ti_transform/model/transform_model.py`.

The mutable `transformed_item` dict of the Python code is modelled as an
insertion-ordered association list of string keys and JSON-like values
(`TransformedItem`), with Python-dict semantics for get / set / delete /
`setdefault(...).append(...)`.
-/

namespace TcEx

/-- JSON-compatible values stored in a `transformed_item` dict.  `datetime`
values (file-occurrence dates) are represented by their string form. -/
inductive JValue where
  | str : String → JValue
  | int : Int → JValue
  | bool : Bool → JValue
  | null : JValue
  | list : List JValue → JValue
  | obj : List (String × JValue) → JValue

/-- A Python dict with string keys: insertion-ordered key/value list.
Dicts built by the code below always have pairwise-distinct keys. -/
abbrev JDict := List (String × JValue)

/-- One in-progress transformed record (`self.transformed_item`). -/
abbrev TransformedItem := JDict

/-- Python `d.get(k)` / `d[k]`-when-present: first binding of `k`. -/
def dictGet (d : JDict) (k : String) : Option JValue :=
  (d.find? (fun kv => kv.1 == k)).map Prod.snd

/-- Python `d[k] = v`: replace the binding in place when the key exists,
otherwise append the new binding at the end (insertion order). -/
def dictSet (d : JDict) (k : String) (v : JValue) : JDict :=
  if d.any (fun kv => kv.1 == k) then
    d.map (fun kv => if kv.1 == k then (k, v) else kv)
  else
    d ++ [(k, v)]

/-- Python `del d[k]` / `d.pop(k, ...)`: drop the binding of `k`
(all of them; dicts built here never repeat a key). -/
def dictDel (d : JDict) (k : String) : JDict :=
  d.filter (fun kv => kv.1 != k)

/-- Python `d.setdefault(k, []).append(v)` on a list-valued key. -/
def setdefaultAppend (d : JDict) (k : String) (v : JValue) : JDict :=
  match dictGet d k with
  | some (JValue.list l) => dictSet d k (JValue.list (l ++ [v]))
  | some _ => d
  | none => d ++ [(k, JValue.list [v])]

/-- Python `d.setdefault(k, []).extend(vs)` on a list-valued key. -/
def setdefaultExtend (d : JDict) (k : String) (vs : List JValue) : JDict :=
  match dictGet d k with
  | some (JValue.list l) => dictSet d k (JValue.list (l ++ vs))
  | some _ => d
  | none => d ++ [(k, JValue.list vs)]

/-- Python truthiness of an optional string argument
(`None` and `''` are falsy). -/
def truthyStr : Option String → Bool
  | none => false
  | some s => s ≠ ""

/-- A nullable string argument stored as-is by the unguarded helpers:
`None` really is written into the item as a JSON null. -/
def optStr : Option String → JValue
  | some s => JValue.str s
  | none => JValue.null

/-- Which concrete transform model a `TiTransform` instance ended up with
(`isinstance(self.transform, GroupTransformModel)` vs
`isinstance(self.transform, IndicatorTransformModel)`). -/
inductive TransformKind where
  | group
  | indicator
deriving DecidableEq, Repr

namespace TiTransform

/-- `TiTransform.add_custom_association`: requires
`seperate_batch_associations`, else raises a `TransformException`; on
success appends the five-field association entry.  (`self.transformed_item
['summary']` / `['type']` are dict indexing; a missing key raises in
Python and is modelled as `JValue.null` here — theorems only use items
where the keys are present.) -/
def add_custom_association (sep : Bool) (item : TransformedItem)
    (summary indicator_type association_type : String) :
    Except Unit TransformedItem :=
  if !sep then
    Except.error ()
  else
    Except.ok <| setdefaultAppend item "association" (JValue.obj
      [("ref_1", (dictGet item "summary").getD JValue.null),
       ("type_1", (dictGet item "type").getD JValue.null),
       ("ref_2", JValue.str summary),
       ("type_2", JValue.str indicator_type),
       ("association_type", JValue.str association_type)])

/-- `TiTransform.add_associated_indicator`: no null guard anywhere — a
`None` summary or indicator type is written into the entry as-is. -/
def add_associated_indicator (sep : Bool) (item : TransformedItem)
    (summary indicator_type : Option String) : TransformedItem :=
  if !sep then
    setdefaultAppend item "associatedIndicators" (JValue.obj
      [("summary", optStr summary),
       ("indicatorType", optStr indicator_type)])
  else
    setdefaultAppend item "association" (JValue.obj
      [("ref_1", (dictGet item "xid").getD JValue.null),
       ("ref_2", optStr summary),
       ("type_2", optStr indicator_type)])

/-- `TiTransform.add_associated_group`: branches on
`seperate_batch_associations` and on the concrete transform model class.
No null guard — a `None` group xid is appended/stored as-is. -/
def add_associated_group (kind : TransformKind) (sep : Bool)
    (item : TransformedItem) (group_xid : Option String) :
    TransformedItem :=
  if !sep then
    match kind with
    | .group =>
        setdefaultAppend item "associatedGroupXid" (optStr group_xid)
    | .indicator =>
        setdefaultAppend item "associatedGroups"
          (JValue.obj [("groupXid", optStr group_xid)])
  else
    match kind with
    | .group =>
        setdefaultAppend item "association" (JValue.obj
          [("ref_1", optStr group_xid),
           ("ref_2", (dictGet item "xid").getD JValue.null)])
    | .indicator =>
        setdefaultAppend item "association" (JValue.obj
          [("ref_1", optStr group_xid),
           ("ref_2", (dictGet item "summary").getD JValue.null),
           ("type_2", (dictGet item "type").getD JValue.null)])

/-- The `attribute_data` dict built inside `TiTransform.add_attribute`:
`type`/`value` always; `displayed` only when `displayed is True`;
`pinned` only when `pinned is True` — and then set to `displayed`
(exactly as the source does); `source` only when not `None`. -/
def attribute_data (type_ value : String) (displayed pinned : Bool)
    (source : Option String) : JDict :=
  let a := [("type", JValue.str type_), ("value", JValue.str value)]
  let a := if displayed then a ++ [("displayed", JValue.bool displayed)] else a
  let a := if pinned then a ++ [("pinned", JValue.bool displayed)] else a
  match source with
  | some s => a ++ [("source", JValue.str s)]
  | none => a

/-- `TiTransform.add_attribute`: guarded by
`type_ is not None and value is not None`. -/
def add_attribute (item : TransformedItem) (type_ value : Option String)
    (displayed pinned : Bool) (source : Option String) : TransformedItem :=
  match type_, value with
  | some t, some v =>
      setdefaultAppend item "attribute"
        (JValue.obj (attribute_data t v displayed pinned source))
  | _, _ => item

/-- `TiTransform.add_file_occurrence`: no `None` guard — always appends;
the dict comprehension keeps only truthy values (`if v`), so `None` and
empty-string fields are dropped from the entry. -/
def add_file_occurrence (item : TransformedItem)
    (file_name path date : Option String) : TransformedItem :=
  setdefaultAppend item "fileOccurrence" (JValue.obj <|
    (if truthyStr file_name then [("fileName", JValue.str (file_name.getD ""))] else [])
    ++ (if truthyStr path then [("path", JValue.str (path.getD ""))] else [])
    ++ (if truthyStr date then [("date", JValue.str (date.getD ""))] else []))

/-- `TiTransform.add_confidence`: `if confidence is not None:
item['confidence'] = int(confidence)`.  The argument is modelled already
converted to an integer. -/
def add_confidence (item : TransformedItem) (confidence : Option Int) :
    TransformedItem :=
  match confidence with
  | some c => dictSet item "confidence" (JValue.int c)
  | none => item

/-- `TiTransform.add_metadata`: guarded by `all([key, value])`
(Python truthiness, so `None` and `''` are both no-ops). -/
def add_metadata (item : TransformedItem) (key value : Option String) :
    TransformedItem :=
  match key, value with
  | some k, some v => if k ≠ "" ∧ v ≠ "" then dictSet item k (JValue.str v) else item
  | _, _ => item

/-- `TiTransform.add_name`: guarded by `name is not None`. -/
def add_name (item : TransformedItem) (name : Option String) :
    TransformedItem :=
  match name with
  | some n => dictSet item "name" (JValue.str n)
  | none => item

/-- `TiTransform.add_rating`: `if rating is not None:
item['rating'] = float(rating)`.  Ratings are whole numbers in this API;
the float conversion is modelled on integral input. -/
def add_rating (item : TransformedItem) (rating : Option Int) :
    TransformedItem :=
  match rating with
  | some r => dictSet item "rating" (JValue.int r)
  | none => item

/-- The `label_data` dict built inside `TiTransform.add_security_label`:
`name` always; `color`/`description` only when not `None`. -/
def label_data (name : String) (color description : Option String) : JDict :=
  let l := [("name", JValue.str name)]
  let l := match color with
    | some c => l ++ [("color", JValue.str c)]
    | none => l
  match description with
  | some d => l ++ [("description", JValue.str d)]
  | none => l

/-- `TiTransform.add_security_label`: guarded by `name is not None`. -/
def add_security_label (item : TransformedItem) (name : Option String)
    (color description : Option String) : TransformedItem :=
  match name with
  | some n =>
      setdefaultAppend item "securityLabel" (JValue.obj (label_data n color description))
  | none => item

/-- `TiTransform.add_summary`: guarded by `value is not None`. -/
def add_summary (item : TransformedItem) (value : Option String) :
    TransformedItem :=
  match value with
  | some v => dictSet item "summary" (JValue.str v)
  | none => item

/-- `TiTransform.add_tag`: guarded by `name is not None`. -/
def add_tag (item : TransformedItem) (name : Option String) :
    TransformedItem :=
  match name with
  | some n => setdefaultAppend item "tag" (JValue.obj [("name", JValue.str n)])
  | none => item

end TiTransform

/-- Code-point-wise comparison of character lists: the lexicographic
order Python uses to sort string keys. -/
def charListLe : List Char → List Char → Bool
  | [], _ => true
  | _ :: _, [] => false
  | a :: as, b :: bs =>
      if a.toNat < b.toNat then true
      else if b.toNat < a.toNat then false
      else charListLe as bs

/-- Lexicographic string order by code point (Python string `<=`). -/
def strLe (a b : String) : Bool := charListLe a.data b.data

/-- Insert a binding into a key-sorted dict, keeping it sorted. -/
def insertSorted (kv : String × JValue) : JDict → JDict
  | [] => [kv]
  | kv' :: rest =>
      if strLe kv.1 kv'.1 then kv :: kv' :: rest
      else kv' :: insertSorted kv rest

/-- `dict(sorted(d.items()))`: ascending by key.  (Python compares the
`(key, value)` tuples, but keys are unique so ordering is by key alone.) -/
def sortByKey : JDict → JDict
  | [] => []
  | kv :: rest => insertSorted kv (sortByKey rest)

namespace TiTransform

/-- `TiTransform.batch`: `dict(sorted(self.transformed_item.items()))`.
(The `self._process()` call that populates the item is in
`transform_abc.py`, outside this serialization step.) -/
def batch_serialize (item : TransformedItem) : TransformedItem :=
  sortByKey item

/-- Python `a[k]` on a sub-entity dict, and `a.get(k)`: both modelled as
lookup; indexing a missing key raises in Python, so theorems that depend
on an indexed key assume it present. -/
def objGet (a : JValue) (k : String) : Option JValue :=
  match a with
  | JValue.obj kvs => dictGet kvs k
  | _ => none

/-- One restructuring step of `TiTransform.v3_api`:
`if v3_data.get(src): v3_data[dst] = f(v3_data[src]); del v3_data[src]`.
The stored collections are always lists, so the truthiness test is
modelled as list-nonemptiness. -/
def v3StepOn (src dst : String) (f : List JValue → JValue)
    (v : TransformedItem) : TransformedItem :=
  match dictGet v src with
  | some (JValue.list l) =>
      if l.isEmpty then v else dictDel (dictSet v dst (f l)) src
  | _ => v

/-- `{'data': [{'xid': g for g in v3_data['associatedGroupXid']}]}`: the
inner term is a dict comprehension that rebinds the single key `'xid'`
for every `g`, so only the last element survives, inside a one-element
list. -/
def agxData (l : List JValue) : JValue :=
  JValue.obj [("data", JValue.list [JValue.obj
    (match l.getLast? with
     | some g => [("xid", g)]
     | none => [])])]

/-- One attribute entry of the v3 `attributes.data` list: keeps
`type`/`value`, defaults `pinned` to `False` and `source` to `None`, and
purposefully omits `displayed` (per the source comment). -/
def v3AttrEntry (a : JValue) : JValue :=
  JValue.obj
    [("type", (objGet a "type").getD JValue.null),
     ("value", (objGet a "value").getD JValue.null),
     ("pinned", (objGet a "pinned").getD (JValue.bool false)),
     ("source", (objGet a "source").getD JValue.null)]

/-- The v3 `attributes` wrapper. -/
def attrData (l : List JValue) : JValue :=
  JValue.obj [("data", JValue.list (l.map v3AttrEntry))]

/-- One tag entry of the v3 `tags.data` list: `{'name': t['name']}`. -/
def v3TagEntry (t : JValue) : JValue :=
  JValue.obj [("name", (objGet t "name").getD JValue.null)]

/-- The v3 `tags` wrapper. -/
def tagData (l : List JValue) : JValue :=
  JValue.obj [("data", JValue.list (l.map v3TagEntry))]

/-- One security-label entry of the v3 `securityLabels.data` list:
`name` indexed, `color`/`description` via `.get` (so `None` when
absent). -/
def v3LabelEntry (s : JValue) : JValue :=
  JValue.obj
    [("name", (objGet s "name").getD JValue.null),
     ("color", (objGet s "color").getD JValue.null),
     ("description", (objGet s "description").getD JValue.null)]

/-- The v3 `securityLabels` wrapper. -/
def slData (l : List JValue) : JValue :=
  JValue.obj [("data", JValue.list (l.map v3LabelEntry))]

/-- One file-occurrence entry of the v3 `fileOccurrences.data` list. -/
def v3FoEntry (f : JValue) : JValue :=
  JValue.obj
    [("fileName", (objGet f "fileName").getD JValue.null),
     ("path", (objGet f "path").getD JValue.null),
     ("date", (objGet f "date").getD JValue.null)]

/-- The v3 `fileOccurrences` wrapper. -/
def foData (l : List JValue) : JValue :=
  JValue.obj [("data", JValue.list (l.map v3FoEntry))]

/-- `TiTransform.v3_api`: copies the item then applies the five
restructuring steps in source order (associated group xids, attributes,
tags, security labels, file occurrences). -/
def v3_serialize (item : TransformedItem) : TransformedItem :=
  v3StepOn "fileOccurrence" "fileOccurrences" foData <|
  v3StepOn "securityLabel" "securityLabels" slData <|
  v3StepOn "tag" "tags" tagData <|
  v3StepOn "attribute" "attributes" attrData <|
  v3StepOn "associatedGroupXid" "associatedGroups" agxData item

end TiTransform

/-- Outcome of `t.batch` / `t.v3_api` for one record of the collection:
either serialized data (with the selected transform's class and the
record's adhoc group/indicator side lists), or one of the three exception
kinds caught by the `TiTransforms` loops.  The per-record `_process`
machinery lives in `transform_abc.py`; the loops only observe which of
these four cases it produced. -/
inductive RecordOutcome where
  | ok (kind : TransformKind) (data : TransformedItem)
      (adhocGroups adhocIndicators : List JValue)
  | noValidTransform
  | transformError
  | unexpectedError

/-- The exception that escapes an aborted `TiTransforms` run. -/
inductive AbortKind where
  | transformError
  | unexpectedError
deriving DecidableEq, Repr

namespace TiTransforms

/-- Body of the `TiTransforms.batch` loop for a successfully serialized
record: optionally pop `association` into the top-level bucket, append
the record dict to its kind's bucket, then extend both buckets with the
adhoc entries. -/
def batchStepOk (sep : Bool) (acc : JDict) (kind : TransformKind)
    (data : TransformedItem) (adhocGroups adhocIndicators : List JValue) :
    JDict :=
  let assoc : List JValue :=
    if sep then
      match dictGet data "association" with
      | some (JValue.list l) => l
      | _ => []
    else []
  let data := if sep then dictDel data "association" else data
  let acc := if sep then setdefaultExtend acc "association" assoc else acc
  let acc :=
    match kind with
    | .group => setdefaultExtend acc "group" [JValue.obj data]
    | .indicator => setdefaultExtend acc "indicator" [JValue.obj data]
  let acc := setdefaultExtend acc "group" adhocGroups
  setdefaultExtend acc "indicator" adhocIndicators

/-- The `TiTransforms.batch` loop: `NoValidTransformException` always
skips; `TransformException` and bare `Exception` skip, or re-raise when
`raise_exceptions`. -/
def batchLoop (sep raiseExc : Bool) :
    List RecordOutcome → JDict → Except AbortKind JDict
  | [], acc => Except.ok acc
  | r :: rest, acc =>
      match r with
      | .noValidTransform => batchLoop sep raiseExc rest acc
      | .transformError =>
          if raiseExc then Except.error AbortKind.transformError
          else batchLoop sep raiseExc rest acc
      | .unexpectedError =>
          if raiseExc then Except.error AbortKind.unexpectedError
          else batchLoop sep raiseExc rest acc
      | .ok kind data aG aI =>
          batchLoop sep raiseExc rest (batchStepOk sep acc kind data aG aI)

/-- `TiTransforms.batch`: starts from `{'group': [], 'indicator': []}`. -/
def batchRun (sep raiseExc : Bool) (records : List RecordOutcome) :
    Except AbortKind JDict :=
  batchLoop sep raiseExc records
    [("group", JValue.list []), ("indicator", JValue.list [])]

/-- Body of the `TiTransforms.v3_api` loop for a successfully serialized
record: `v3_data.setdefault(data.pop('type'), []).extend(data)`.
`extend` iterates the dict `data`, i.e. its remaining KEYS, so the bucket
receives the key strings of the record, not the record itself.  (The
record's `type` value is the bucket key; a missing or non-string `type`
raises in Python and is modelled as leaving the accumulator unchanged —
theorems only use records whose `type` is a string.)  The adhoc lists are
ignored by `v3_api`. -/
def v3StepOk (acc : JDict) (data : TransformedItem) : JDict :=
  match dictGet data "type" with
  | some (JValue.str ty) =>
      let rest := dictDel data "type"
      setdefaultExtend acc ty (rest.map (fun kv => JValue.str kv.1))
  | _ => acc

/-- The `TiTransforms.v3_api` loop: same exception policy as `batch`. -/
def v3Loop (raiseExc : Bool) :
    List RecordOutcome → JDict → Except AbortKind JDict
  | [], acc => Except.ok acc
  | r :: rest, acc =>
      match r with
      | .noValidTransform => v3Loop raiseExc rest acc
      | .transformError =>
          if raiseExc then Except.error AbortKind.transformError
          else v3Loop raiseExc rest acc
      | .unexpectedError =>
          if raiseExc then Except.error AbortKind.unexpectedError
          else v3Loop raiseExc rest acc
      | .ok _ data _ _ => v3Loop raiseExc rest (v3StepOk acc data)

/-- `TiTransforms.v3_api`: starts from `{}`. -/
def v3Run (raiseExc : Bool) (records : List RecordOutcome) :
    Except AbortKind JDict :=
  v3Loop raiseExc records []

end TiTransforms

/-! ## Configuration model (`transform_model.py`) -/

namespace TransformModel

/-- Python truthiness of the optional `filter_map`/`static_map` dict
fields: `None` and `{}` are falsy. -/
def mapTruthy : Option JDict → Bool
  | none => false
  | some m => !m.isEmpty

/-- `TransformModel._required_transform`, verbatim: collects the four
mechanism fields, errors when `not any(fields)` (no truthy mechanism),
then errors when `fields.count(None) < 2`.  The `method`/`for_each`
fields hold callables or `PredefinedFunctionModel`s, which are always
truthy, so only their presence matters. -/
def required_transform (filter_map static_map : Option JDict)
    (method for_each : Option Unit) : Except String Unit :=
  let anyTruthy := mapTruthy filter_map || mapTruthy static_map
    || method.isSome || for_each.isSome
  if !anyTruthy then
    Except.error "Either map or method must be defined."
  else
    let noneCount := (if filter_map.isNone then 1 else 0)
      + (if static_map.isNone then 1 else 0)
      + (if method.isNone then 1 else 0)
      + (if for_each.isNone then 1 else 0)
    if noneCount < 2 then
      Except.error "Only one transform mechanism can be defined."
    else
      Except.ok ()

end TransformModel

namespace PathTransformModel

/-- `PathTransformModel._validate_path`: compile the path with
`jmespath.compile`, turning any compile failure into a validation error.
The external jmespath compiler is abstracted as a syntactic-validity
oracle `compileOk`. -/
def validate_path (compileOk : String → Bool) (path : Option String) :
    Except String (Option String) :=
  match path with
  | none => Except.ok none
  | some p =>
      if compileOk p then Except.ok (some p)
      else Except.error "A valid path must be provided."

/-- `PathTransformModel._default_or_path`: `any([default, path])` under
Python truthiness. -/
def default_or_path (default path : Option String) : Except String Unit :=
  if truthyStr default || truthyStr path then Except.ok ()
  else Except.error "Either default or path or both must be defined."

/-- Construction of a `PathTransformModel`: pydantic runs the field
validator for `path`, then the root validator over the validated values.
Any validator error fails construction. -/
def construct (compileOk : String → Bool) (default path : Option String) :
    Except String (Option String × Option String) :=
  match validate_path compileOk path with
  | Except.error e => Except.error e
  | Except.ok path' =>
      match default_or_path default path' with
      | Except.error e => Except.error e
      | Except.ok _ => Except.ok (default, path')

end PathTransformModel

namespace IndicatorTransformModel

/-- `IndicatorTransformModel._one_indicator_value`:
`any([values.get('value1'), values.get('value2'), values.get('value3')])`
— the fields hold `MetadataTransformModel`s, which are always truthy, so
presence is what is tested. -/
def one_indicator_value (value1 value2 value3 : Option Unit) :
    Except String Unit :=
  if value1.isSome || value2.isSome || value3.isSome then Except.ok ()
  else
    Except.error
      "An indicator transform must be defined (e.g., summary, value1, value2, value3)."

end IndicatorTransformModel

/-! ## Observation predicates on values -/

mutual
/-- `v` contains no `null` (Python `None`) anywhere inside it. -/
def JValue.noNull : JValue → Bool
  | .str _ => true
  | .int _ => true
  | .bool _ => true
  | .null => false
  | .list vs => noNullList vs
  | .obj kvs => noNullObj kvs

/-- All values of a list are `null`-free. -/
def noNullList : List JValue → Bool
  | [] => true
  | v :: vs => v.noNull && noNullList vs

/-- All values of an object are `null`-free. -/
def noNullObj : List (String × JValue) → Bool
  | [] => true
  | kv :: kvs => kv.2.noNull && noNullObj kvs
end

/-- No binding of the item holds a `null` anywhere. -/
def itemNoNull (d : JDict) : Bool := noNullObj d

mutual
/-- The string `x` occurs as a string value somewhere inside `v`. -/
def JValue.hasStr (x : String) : JValue → Bool
  | .str s => s == x
  | .int _ => false
  | .bool _ => false
  | .null => false
  | .list vs => hasStrList x vs
  | .obj kvs => hasStrObj x kvs

/-- `x` occurs in some value of the list. -/
def hasStrList (x : String) : List JValue → Bool
  | [] => false
  | v :: vs => v.hasStr x || hasStrList x vs

/-- `x` occurs in some value of the object. -/
def hasStrObj (x : String) : List (String × JValue) → Bool
  | [] => false
  | kv :: kvs => kv.2.hasStr x || hasStrObj x kvs
end

/-- The string `x` occurs as a string value somewhere in the item. -/
def itemHasStr (x : String) (d : JDict) : Bool := hasStrObj x d

/-- Field lookup with Python `.get` semantics (`None` for absence): the
common content view used to compare batch and v3 sub-entity entries
field by field. -/
def contentGet (e : JValue) (k : String) : JValue :=
  (TiTransform.objGet e k).getD JValue.null

/-- The content of an attribute entry named by the round-trip claim:
its `type` and `value`. -/
def attrContent (e : JValue) : JValue × JValue :=
  (contentGet e "type", contentGet e "value")

/-- The content of a tag entry: its `name`. -/
def tagContent (e : JValue) : JValue := contentGet e "name"

/-- The content of a security-label entry: `name`, `color`,
`description`. -/
def labelContent (e : JValue) : JValue × JValue × JValue :=
  (contentGet e "name", contentGet e "color", contentGet e "description")

/-- The content of a file-occurrence entry: `fileName`, `path`, `date`. -/
def foContent (e : JValue) : JValue × JValue × JValue :=
  (contentGet e "fileName", contentGet e "path", contentGet e "date")

/-- A sample fully-populated transformed item (one attribute with its
`displayed` flag set, one file occurrence, one security label, one tag),
used to instantiate the serialization theorems on concrete data. -/
def sampleItem : TransformedItem :=
  [("attribute", JValue.list [JValue.obj
      [("type", JValue.str "Source"), ("value", JValue.str "osint"),
       ("displayed", JValue.bool true)]]),
   ("fileOccurrence", JValue.list [JValue.obj
      [("fileName", JValue.str "a.exe")]]),
   ("securityLabel", JValue.list [JValue.obj
      [("name", JValue.str "TLP:GREEN"), ("color", JValue.str "green")]]),
   ("summary", JValue.str "1.2.3.4"),
   ("tag", JValue.list [JValue.obj [("name", JValue.str "t1")]]),
   ("type", JValue.str "Address")]

/-! ## Dict lemmas -/

theorem dictGet_nil (k : String) : dictGet [] k = none := rfl

theorem dictGet_cons (kv : String × JValue) (d : JDict) (k : String) :
    dictGet (kv :: d) k = if kv.1 = k then some kv.2 else dictGet d k := by
  by_cases h : kv.1 = k <;> simp [dictGet, List.find?_cons, h]

theorem dictGet_append (d₁ d₂ : JDict) (k : String) :
    dictGet (d₁ ++ d₂) k =
      match dictGet d₁ k with
      | some v => some v
      | none => dictGet d₂ k := by
  induction d₁ with
  | nil => simp [dictGet_nil]
  | cons kv rest ih =>
      by_cases h : kv.1 = k <;>
        simp [List.cons_append, dictGet_cons, h, ih]

theorem dictGet_eq_none_of_not_any (d : JDict) (k : String)
    (h : d.any (fun kv => kv.1 == k) = false) : dictGet d k = none := by
  induction d with
  | nil => rfl
  | cons kv rest ih =>
      simp only [List.any_cons, Bool.or_eq_false_iff] at h
      have hk : kv.1 ≠ k := by simpa using h.1
      simp [dictGet_cons, hk, ih h.2]

theorem dictGet_map_replace (d : JDict) (k k' : String) (v : JValue)
    (h : k' ≠ k) :
    dictGet (d.map (fun kv => if kv.1 == k then (k, v) else kv)) k' =
      dictGet d k' := by
  induction d with
  | nil => rfl
  | cons kv rest ih =>
      rw [List.map_cons, dictGet_cons, dictGet_cons]
      by_cases hk : kv.1 = k
      · have h1 : (if kv.1 == k then (k, v) else kv) = (k, v) := by simp [hk]
        have hv : ((k : String), v).1 ≠ k' := fun hh => h hh.symm
        have hkv : kv.1 ≠ k' := fun hh => h (by rw [← hk, hh])
        rw [h1, if_neg hv, if_neg hkv, ih]
      · have h1 : (if kv.1 == k then (k, v) else kv) = kv := by simp [hk]
        rw [h1, ih]

theorem dictGet_dictSet (d : JDict) (k : String) (v : JValue) (k' : String) :
    dictGet (dictSet d k v) k' = if k' = k then some v else dictGet d k' := by
  rw [dictSet]
  by_cases hany : d.any (fun kv => kv.1 == k)
  · rw [if_pos hany]
    by_cases hk' : k' = k
    · subst hk'
      rw [if_pos rfl]
      induction d with
      | nil => simp at hany
      | cons kv rest ih =>
          rw [List.map_cons, dictGet_cons]
          by_cases hk : kv.1 = k'
          · have h1 : (if kv.1 == k' then (k', v) else kv) = (k', v) := by
              simp [hk]
            rw [h1, if_pos rfl]
          · have h1 : (if kv.1 == k' then (k', v) else kv) = kv := by
              simp [hk]
            simp only [List.any_cons, Bool.or_eq_true] at hany
            rcases hany with hx | hrest
            · exact absurd (by simpa using hx) hk
            · rw [h1, if_neg hk, ih hrest]
    · rw [if_neg hk']
      exact dictGet_map_replace d k k' v hk'
  · simp only [Bool.not_eq_true] at hany
    rw [hany]
    simp only [Bool.false_eq_true, if_false]
    rw [dictGet_append]
    by_cases hk' : k' = k
    · subst hk'
      rw [dictGet_eq_none_of_not_any d k' hany]
      simp [dictGet_cons]
    · rw [if_neg hk']
      cases hg : dictGet d k' with
      | some w => simp
      | none => simp [dictGet_cons, dictGet_nil, Ne.symm hk']

theorem dictGet_dictDel (d : JDict) (k k' : String) :
    dictGet (dictDel d k) k' = if k' = k then none else dictGet d k' := by
  induction d with
  | nil => simp [dictDel, dictGet_nil]
  | cons kv rest ih =>
      rw [dictDel] at ih ⊢
      rw [List.filter_cons]
      by_cases hk : kv.1 = k
      · have hf : (kv.1 != k) = false := by simp [hk]
        rw [hf]
        simp only [Bool.false_eq_true, if_false]
        by_cases hk' : k' = k
        · rw [ih]
          simp [hk']
        · have hne : kv.1 ≠ k' := fun hh => hk' (by rw [← hh, hk])
          rw [ih, dictGet_cons]
          simp [hk', hne]
      · have hf : (kv.1 != k) = true := by simp [hk]
        rw [hf]
        simp only [if_true]
        rw [dictGet_cons, dictGet_cons]
        by_cases hk' : kv.1 = k'
        · have hne : ¬ k' = k := fun hh => hk (by rw [hk', hh])
          rw [if_pos hk', if_neg hne, if_pos hk']
        · rw [if_neg hk', if_neg hk', ih]

theorem dictGet_setdefaultAppend (d : JDict) (k : String) (v : JValue)
    (k' : String) :
    dictGet (setdefaultAppend d k v) k' =
      if k' = k then
        match dictGet d k with
        | some (JValue.list l) => some (JValue.list (l ++ [v]))
        | some w => some w
        | none => some (JValue.list [v])
      else dictGet d k' := by
  rw [setdefaultAppend]
  cases hg : dictGet d k with
  | none =>
      rw [dictGet_append]
      by_cases hk' : k' = k
      · subst hk'
        simp [hg, dictGet_cons]
      · simp only [hk', if_false]
        cases hd : dictGet d k' with
        | some w => simp
        | none => simp [dictGet_cons, dictGet_nil, Ne.symm hk']
  | some jv =>
      cases jv with
      | list l => rw [dictGet_dictSet]
      | str s => by_cases hk' : k' = k <;> simp [hk', hg]
      | int n => by_cases hk' : k' = k <;> simp [hk', hg]
      | bool b => by_cases hk' : k' = k <;> simp [hk', hg]
      | null => by_cases hk' : k' = k <;> simp [hk', hg]
      | obj o => by_cases hk' : k' = k <;> simp [hk', hg]

theorem dictGet_setdefaultExtend (d : JDict) (k : String) (vs : List JValue)
    (k' : String) :
    dictGet (setdefaultExtend d k vs) k' =
      if k' = k then
        match dictGet d k with
        | some (JValue.list l) => some (JValue.list (l ++ vs))
        | some w => some w
        | none => some (JValue.list vs)
      else dictGet d k' := by
  rw [setdefaultExtend]
  cases hg : dictGet d k with
  | none =>
      rw [dictGet_append]
      by_cases hk' : k' = k
      · subst hk'
        simp [hg, dictGet_cons]
      · simp only [hk', if_false]
        cases hd : dictGet d k' with
        | some w => simp
        | none => simp [dictGet_cons, dictGet_nil, Ne.symm hk']
  | some jv =>
      cases jv with
      | list l => rw [dictGet_dictSet]
      | str s => by_cases hk' : k' = k <;> simp [hk', hg]
      | int n => by_cases hk' : k' = k <;> simp [hk', hg]
      | bool b => by_cases hk' : k' = k <;> simp [hk', hg]
      | null => by_cases hk' : k' = k <;> simp [hk', hg]
      | obj o => by_cases hk' : k' = k <;> simp [hk', hg]

/-! ## Sorting lemmas: `dict(sorted(...))` does not change lookups -/

theorem insertSorted_perm (kv : String × JValue) (d : JDict) :
    (insertSorted kv d).Perm (kv :: d) := by
  induction d with
  | nil => exact List.Perm.refl _
  | cons kv' rest ih =>
      rw [insertSorted]
      by_cases h : strLe kv.1 kv'.1 = true
      · rw [if_pos h]
      · rw [if_neg h]
        exact (ih.cons kv').trans (List.Perm.swap kv kv' rest)

theorem sortByKey_perm (d : JDict) : (sortByKey d).Perm d := by
  induction d with
  | nil => exact List.Perm.refl _
  | cons kv rest ih =>
      rw [sortByKey]
      exact (insertSorted_perm kv (sortByKey rest)).trans (ih.cons kv)

theorem dictGet_insertSorted (kv : String × JValue) (d : JDict) (k : String)
    (h : ∀ kv' ∈ d, kv'.1 ≠ kv.1) :
    dictGet (insertSorted kv d) k =
      if kv.1 = k then some kv.2 else dictGet d k := by
  induction d with
  | nil => rw [insertSorted, dictGet_cons]
  | cons kv' rest ih =>
      rw [insertSorted]
      by_cases hle : strLe kv.1 kv'.1 = true
      · rw [if_pos hle, dictGet_cons]
      · rw [if_neg hle, dictGet_cons]
        have hne : kv'.1 ≠ kv.1 := h kv' (List.mem_cons_self kv' rest)
        by_cases hk' : kv'.1 = k
        · have : ¬ kv.1 = k := fun hh => hne (by rw [hk', hh])
          rw [if_pos hk', if_neg this, dictGet_cons, if_pos hk']
        · rw [if_neg hk',
            ih (fun a ha => h a (List.mem_cons_of_mem kv' ha)),
            dictGet_cons]
          by_cases hk : kv.1 = k
          · rw [if_pos hk, if_pos hk]
          · rw [if_neg hk, if_neg hk, if_neg hk']

theorem dictGet_sortByKey (d : JDict) (k : String)
    (hnd : (d.map Prod.fst).Nodup) :
    dictGet (sortByKey d) k = dictGet d k := by
  induction d with
  | nil => rfl
  | cons kv rest ih =>
      rw [List.map_cons, List.nodup_cons] at hnd
      rw [sortByKey]
      have hmem : ∀ kv' ∈ sortByKey rest, kv'.1 ≠ kv.1 := by
        intro kv' hkv' hc
        exact hnd.1 (hc ▸ List.mem_map_of_mem Prod.fst
          ((sortByKey_perm rest).mem_iff.mp hkv'))
      rw [dictGet_insertSorted kv _ k hmem, ih hnd.2, dictGet_cons]

/-! ## Lemmas about the v3 restructuring steps -/

theorem dictGet_v3StepOn_other (src dst : String) (f : List JValue → JValue)
    (v : TransformedItem) (k : String) (h1 : k ≠ src) (h2 : k ≠ dst) :
    dictGet (TiTransform.v3StepOn src dst f v) k = dictGet v k := by
  rw [TiTransform.v3StepOn]
  cases hg : dictGet v src with
  | none => rfl
  | some jv =>
      cases jv with
      | list l =>
          by_cases he : l.isEmpty
          · simp [he]
          · simp only [he, Bool.false_eq_true, if_false]
            rw [dictGet_dictDel, if_neg h1, dictGet_dictSet, if_neg h2]
      | str s => rfl
      | int n => rfl
      | bool b => rfl
      | null => rfl
      | obj o => rfl

theorem v3StepOn_fires (src dst : String) (f : List JValue → JValue)
    (v : TransformedItem) (l : List JValue)
    (h : dictGet v src = some (JValue.list l)) (hne : l ≠ []) :
    TiTransform.v3StepOn src dst f v =
      dictDel (dictSet v dst (f l)) src := by
  rw [TiTransform.v3StepOn, h]
  simp [List.isEmpty_iff, hne]

theorem v3StepOn_skips (src dst : String) (f : List JValue → JValue)
    (v : TransformedItem) (h : dictGet v src = none) :
    TiTransform.v3StepOn src dst f v = v := by
  rw [TiTransform.v3StepOn, h]

/-! ## Claims -/

/-- C1: the claim says `TransformModel` construction fails when two or
more of {filter_map, static_map, method, for_each} are set, but
`_required_transform` tests `fields.count(None) < 2`, which only rejects
three or more: with `filter_map` and `static_map` both set the validator
accepts the rule, contradicting its own error message that only one
transform mechanism can be defined.  Zero mechanisms set is rejected, one
is accepted and three are rejected, as claimed. -/
theorem claimC1_two_mechanisms_accepted :
    TransformModel.required_transform
        (some [("a", JValue.int 1)]) (some [("b", JValue.int 2)]) none none =
      Except.ok () ∧
    TransformModel.required_transform none none none none =
      Except.error "Either map or method must be defined." ∧
    TransformModel.required_transform
        (some [("a", JValue.int 1)]) none none none =
      Except.ok () ∧
    TransformModel.required_transform
        (some [("a", JValue.int 1)]) (some [("b", JValue.int 2)])
        (some ()) none =
      Except.error "Only one transform mechanism can be defined." :=
  ⟨rfl, rfl, rfl, rfl⟩

/-- C2: the claim says each successfully transformed record appends its
serialized v3 entity dict (minus `type`) to the bucket of its type name,
but `v3_api` collects with `setdefault(data.pop('type'), []).extend(data)`
and extending a list with a dict iterates the dict KEYS: a record
serializing to `{'type': 'Address', 'summary': '1.2.3.4', 'rating': 3}`
contributes the two key strings `'summary'` and `'rating'` to the
`Address` bucket instead of one entity dict. -/
theorem claimC2_v3_extends_keys :
    TiTransforms.v3Run false
        [RecordOutcome.ok TransformKind.indicator
          [("type", JValue.str "Address"),
           ("summary", JValue.str "1.2.3.4"),
           ("rating", JValue.int 3)] [] []] =
      Except.ok [("Address",
        JValue.list [JValue.str "summary", JValue.str "rating"])] := rfl

/-- C7: a `PathTransformModel` whose `path` compiles succeeds at
construction, and one whose `path` does not compile fails at construction
with the path-validation error — never deferred to evaluation.  The
external jmespath compiler is abstracted as the oracle `compileOk`; the
empty expression never compiles (`jmespath.compile('')` raises). -/
theorem claimC7_path_validated_at_construction
    (compileOk : String → Bool) (hempty : compileOk "" = false)
    (default : Option String) (p : String) :
    (compileOk p = true →
      PathTransformModel.construct compileOk default (some p) =
        Except.ok (default, some p)) ∧
    (compileOk p = false →
      PathTransformModel.construct compileOk default (some p) =
        Except.error "A valid path must be provided.") := by
  constructor
  · intro hc
    have hp : p ≠ "" := by
      intro h
      rw [h, hempty] at hc
      exact Bool.noConfusion hc
    simp [PathTransformModel.construct, PathTransformModel.validate_path,
      PathTransformModel.default_or_path, hc, truthyStr, hp]
  · intro hc
    simp [PathTransformModel.construct, PathTransformModel.validate_path, hc]

/-- Witness for C7 at a concrete oracle and concrete paths. -/
theorem claimC7_witness :
    PathTransformModel.construct (fun s => !s.isEmpty) none (some "a") =
      Except.ok (none, some "a") ∧
    PathTransformModel.construct (fun s => !s.isEmpty) none (some "") =
      Except.error "A valid path must be provided." :=
  ⟨(claimC7_path_validated_at_construction (fun s => !s.isEmpty) rfl none
      "a").1 rfl,
   (claimC7_path_validated_at_construction (fun s => !s.isEmpty) rfl none
      "").2 rfl⟩

/-- C8: the Indicator construction-time check `_one_indicator_value`
fails exactly when none of value1/value2/value3 is configured; at least
one configured is sufficient for this check to pass. -/
theorem claimC8_one_indicator_value (value1 value2 value3 : Option Unit) :
    (value1 = none → value2 = none → value3 = none →
      IndicatorTransformModel.one_indicator_value value1 value2 value3 =
        Except.error
          "An indicator transform must be defined (e.g., summary, value1, value2, value3).") ∧
    (value1.isSome ∨ value2.isSome ∨ value3.isSome →
      IndicatorTransformModel.one_indicator_value value1 value2 value3 =
        Except.ok ()) := by
  constructor
  · rintro rfl rfl rfl
    rfl
  · intro h
    have hb : (value1.isSome || value2.isSome || value3.isSome) = true := by
      rcases h with h | h | h <;> simp [h]
    rw [IndicatorTransformModel.one_indicator_value, if_pos hb]

/-- Witness for C8: no value configured errors; value2 alone passes. -/
theorem claimC8_witness :
    IndicatorTransformModel.one_indicator_value none none none =
      Except.error
        "An indicator transform must be defined (e.g., summary, value1, value2, value3)." ∧
    IndicatorTransformModel.one_indicator_value none (some ()) none =
      Except.ok () :=
  ⟨(claimC8_one_indicator_value none none none).1 rfl rfl rfl,
   (claimC8_one_indicator_value none (some ()) none).2 (Or.inr (Or.inl rfl))⟩

/-- The batch loop distributes over list append. -/
theorem batchLoop_append (sep re : Bool) (r1 r2 : List RecordOutcome)
    (acc : JDict) :
    TiTransforms.batchLoop sep re (r1 ++ r2) acc =
      match TiTransforms.batchLoop sep re r1 acc with
      | Except.ok a => TiTransforms.batchLoop sep re r2 a
      | Except.error e => Except.error e := by
  induction r1 generalizing acc with
  | nil => simp [TiTransforms.batchLoop]
  | cons r rest ih =>
      cases r with
      | ok kind data aG aI =>
          simp only [List.cons_append, TiTransforms.batchLoop]
          exact ih _
      | noValidTransform =>
          simp only [List.cons_append, TiTransforms.batchLoop]
          exact ih acc
      | transformError =>
          simp only [List.cons_append, TiTransforms.batchLoop]
          cases re with
          | true => simp
          | false => simpa using ih acc
      | unexpectedError =>
          simp only [List.cons_append, TiTransforms.batchLoop]
          cases re with
          | true => simp
          | false => simpa using ih acc

/-- The v3 loop distributes over list append. -/
theorem v3Loop_append (re : Bool) (r1 r2 : List RecordOutcome)
    (acc : JDict) :
    TiTransforms.v3Loop re (r1 ++ r2) acc =
      match TiTransforms.v3Loop re r1 acc with
      | Except.ok a => TiTransforms.v3Loop re r2 a
      | Except.error e => Except.error e := by
  induction r1 generalizing acc with
  | nil => simp [TiTransforms.v3Loop]
  | cons r rest ih =>
      cases r with
      | ok kind data aG aI =>
          simp only [List.cons_append, TiTransforms.v3Loop]
          exact ih _
      | noValidTransform =>
          simp only [List.cons_append, TiTransforms.v3Loop]
          exact ih acc
      | transformError =>
          simp only [List.cons_append, TiTransforms.v3Loop]
          cases re with
          | true => simp
          | false => simpa using ih acc
      | unexpectedError =>
          simp only [List.cons_append, TiTransforms.v3Loop]
          cases re with
          | true => simp
          | false => simpa using ih acc

/-- A prefix without error outcomes cannot abort the batch loop. -/
theorem batchLoop_ok_of_clean (sep : Bool) (r1 : List RecordOutcome)
    (acc : JDict)
    (h : ∀ r ∈ r1, r ≠ RecordOutcome.transformError ∧
      r ≠ RecordOutcome.unexpectedError) :
    ∃ a, TiTransforms.batchLoop sep true r1 acc = Except.ok a := by
  induction r1 generalizing acc with
  | nil => exact ⟨acc, rfl⟩
  | cons r rest ih =>
      have hr := h r (List.mem_cons_self r rest)
      have hrest := fun x hx => h x (List.mem_cons_of_mem r hx)
      cases r with
      | ok kind data aG aI =>
          simpa [TiTransforms.batchLoop] using ih _ hrest
      | noValidTransform =>
          simpa [TiTransforms.batchLoop] using ih acc hrest
      | transformError => exact absurd rfl hr.1
      | unexpectedError => exact absurd rfl hr.2

/-- A prefix without error outcomes cannot abort the v3 loop. -/
theorem v3Loop_ok_of_clean (r1 : List RecordOutcome) (acc : JDict)
    (h : ∀ r ∈ r1, r ≠ RecordOutcome.transformError ∧
      r ≠ RecordOutcome.unexpectedError) :
    ∃ a, TiTransforms.v3Loop true r1 acc = Except.ok a := by
  induction r1 generalizing acc with
  | nil => exact ⟨acc, rfl⟩
  | cons r rest ih =>
      have hr := h r (List.mem_cons_self r rest)
      have hrest := fun x hx => h x (List.mem_cons_of_mem r hx)
      cases r with
      | ok kind data aG aI =>
          simpa [TiTransforms.v3Loop] using ih _ hrest
      | noValidTransform =>
          simpa [TiTransforms.v3Loop] using ih acc hrest
      | transformError => exact absurd rfl hr.1
      | unexpectedError => exact absurd rfl hr.2

/-- C4: exception policy of the batch and v3 collection loops.  A record
raising `NoValidTransformException` is skipped even when
`raise_exceptions` is set; a `TransformException` or unexpected exception
is skipped when the flag is off and aborts the run (with the exception
re-raised) when it is on, provided no earlier record already aborted; and
a skipped record leaves every other record's contribution unchanged
(dropping it from the input gives the identical result). -/
theorem claimC4_exception_policy :
    (∀ sep re r1 r2,
      TiTransforms.batchRun sep re
          (r1 ++ RecordOutcome.noValidTransform :: r2) =
        TiTransforms.batchRun sep re (r1 ++ r2)) ∧
    (∀ re r1 r2,
      TiTransforms.v3Run re (r1 ++ RecordOutcome.noValidTransform :: r2) =
        TiTransforms.v3Run re (r1 ++ r2)) ∧
    (∀ sep r1 r2,
      TiTransforms.batchRun sep false
          (r1 ++ RecordOutcome.transformError :: r2) =
        TiTransforms.batchRun sep false (r1 ++ r2)) ∧
    (∀ sep r1 r2,
      TiTransforms.batchRun sep false
          (r1 ++ RecordOutcome.unexpectedError :: r2) =
        TiTransforms.batchRun sep false (r1 ++ r2)) ∧
    (∀ r1 r2,
      TiTransforms.v3Run false (r1 ++ RecordOutcome.transformError :: r2) =
        TiTransforms.v3Run false (r1 ++ r2)) ∧
    (∀ r1 r2,
      TiTransforms.v3Run false (r1 ++ RecordOutcome.unexpectedError :: r2) =
        TiTransforms.v3Run false (r1 ++ r2)) ∧
    (∀ sep r1 r2,
      (∀ r ∈ r1, r ≠ RecordOutcome.transformError ∧
        r ≠ RecordOutcome.unexpectedError) →
      TiTransforms.batchRun sep true
          (r1 ++ RecordOutcome.transformError :: r2) =
        Except.error AbortKind.transformError) ∧
    (∀ sep r1 r2,
      (∀ r ∈ r1, r ≠ RecordOutcome.transformError ∧
        r ≠ RecordOutcome.unexpectedError) →
      TiTransforms.batchRun sep true
          (r1 ++ RecordOutcome.unexpectedError :: r2) =
        Except.error AbortKind.unexpectedError) ∧
    (∀ r1 r2,
      (∀ r ∈ r1, r ≠ RecordOutcome.transformError ∧
        r ≠ RecordOutcome.unexpectedError) →
      TiTransforms.v3Run true (r1 ++ RecordOutcome.transformError :: r2) =
        Except.error AbortKind.transformError) ∧
    (∀ r1 r2,
      (∀ r ∈ r1, r ≠ RecordOutcome.transformError ∧
        r ≠ RecordOutcome.unexpectedError) →
      TiTransforms.v3Run true (r1 ++ RecordOutcome.unexpectedError :: r2) =
        Except.error AbortKind.unexpectedError) := by
  refine ⟨?_, ?_, ?_, ?_, ?_, ?_, ?_, ?_, ?_, ?_⟩
  · intro sep re r1 r2
    rw [TiTransforms.batchRun, TiTransforms.batchRun,
      batchLoop_append, batchLoop_append]
    cases TiTransforms.batchLoop sep re r1 _ with
    | ok a => simp [TiTransforms.batchLoop]
    | error e => rfl
  · intro re r1 r2
    rw [TiTransforms.v3Run, TiTransforms.v3Run,
      v3Loop_append, v3Loop_append]
    cases TiTransforms.v3Loop re r1 _ with
    | ok a => simp [TiTransforms.v3Loop]
    | error e => rfl
  · intro sep r1 r2
    rw [TiTransforms.batchRun, TiTransforms.batchRun,
      batchLoop_append, batchLoop_append]
    cases TiTransforms.batchLoop sep false r1 _ with
    | ok a => simp [TiTransforms.batchLoop]
    | error e => rfl
  · intro sep r1 r2
    rw [TiTransforms.batchRun, TiTransforms.batchRun,
      batchLoop_append, batchLoop_append]
    cases TiTransforms.batchLoop sep false r1 _ with
    | ok a => simp [TiTransforms.batchLoop]
    | error e => rfl
  · intro r1 r2
    rw [TiTransforms.v3Run, TiTransforms.v3Run,
      v3Loop_append, v3Loop_append]
    cases TiTransforms.v3Loop false r1 _ with
    | ok a => simp [TiTransforms.v3Loop]
    | error e => rfl
  · intro r1 r2
    rw [TiTransforms.v3Run, TiTransforms.v3Run,
      v3Loop_append, v3Loop_append]
    cases TiTransforms.v3Loop false r1 _ with
    | ok a => simp [TiTransforms.v3Loop]
    | error e => rfl
  · intro sep r1 r2 h
    rw [TiTransforms.batchRun, batchLoop_append]
    obtain ⟨a, ha⟩ := batchLoop_ok_of_clean sep r1 _ h
    rw [ha]
    simp [TiTransforms.batchLoop]
  · intro sep r1 r2 h
    rw [TiTransforms.batchRun, batchLoop_append]
    obtain ⟨a, ha⟩ := batchLoop_ok_of_clean sep r1 _ h
    rw [ha]
    simp [TiTransforms.batchLoop]
  · intro r1 r2 h
    rw [TiTransforms.v3Run, v3Loop_append]
    obtain ⟨a, ha⟩ := v3Loop_ok_of_clean r1 _ h
    rw [ha]
    simp [TiTransforms.v3Loop]
  · intro r1 r2 h
    rw [TiTransforms.v3Run, v3Loop_append]
    obtain ⟨a, ha⟩ := v3Loop_ok_of_clean r1 _ h
    rw [ha]
    simp [TiTransforms.v3Loop]

/-- Witness for C4 at concrete record lists: a no-valid-transform record
between two skippable records is dropped even with the flag set, and a
transform error after a clean prefix aborts with that error. -/
theorem claimC4_witness :
    TiTransforms.batchRun true true
        [RecordOutcome.noValidTransform, RecordOutcome.noValidTransform] =
      TiTransforms.batchRun true true [RecordOutcome.noValidTransform] ∧
    TiTransforms.v3Run true
        [RecordOutcome.noValidTransform, RecordOutcome.transformError] =
      Except.error AbortKind.transformError := by
  constructor
  · exact claimC4_exception_policy.1 true true [RecordOutcome.noValidTransform] []
  · exact claimC4_exception_policy.2.2.2.2.2.2.2.2.1
      [RecordOutcome.noValidTransform] []
      (fun r hr => by
        rw [List.mem_singleton] at hr
        subst hr
        exact ⟨fun h => RecordOutcome.noConfusion h,
          fun h => RecordOutcome.noConfusion h⟩)

/-! ### Characterization of the four v3 collection restructurings -/

theorem dictGet_v3_serialize_attr (item : TransformedItem)
    (l : List JValue) (hne : l ≠ [])
    (h : dictGet item "attribute" = some (JValue.list l)) :
    dictGet (TiTransform.v3_serialize item) "attributes" =
      some (TiTransform.attrData l) ∧
    dictGet (TiTransform.v3_serialize item) "attribute" = none := by
  have h2 : dictGet (TiTransform.v3StepOn "associatedGroupXid"
      "associatedGroups" TiTransform.agxData item) "attribute" =
      some (JValue.list l) := by
    rw [dictGet_v3StepOn_other _ _ _ _ _ (by decide) (by decide)]
    exact h
  rw [TiTransform.v3_serialize, v3StepOn_fires _ _ _ _ _ h2 hne]
  constructor
  · rw [dictGet_v3StepOn_other _ _ _ _ _ (by decide) (by decide),
      dictGet_v3StepOn_other _ _ _ _ _ (by decide) (by decide),
      dictGet_v3StepOn_other _ _ _ _ _ (by decide) (by decide),
      dictGet_dictDel, if_neg (by decide), dictGet_dictSet, if_pos rfl]
  · rw [dictGet_v3StepOn_other _ _ _ _ _ (by decide) (by decide),
      dictGet_v3StepOn_other _ _ _ _ _ (by decide) (by decide),
      dictGet_v3StepOn_other _ _ _ _ _ (by decide) (by decide),
      dictGet_dictDel, if_pos rfl]

theorem dictGet_v3_serialize_tag (item : TransformedItem)
    (l : List JValue) (hne : l ≠ [])
    (h : dictGet item "tag" = some (JValue.list l)) :
    dictGet (TiTransform.v3_serialize item) "tags" =
      some (TiTransform.tagData l) ∧
    dictGet (TiTransform.v3_serialize item) "tag" = none := by
  have h2 : dictGet (TiTransform.v3StepOn "attribute" "attributes"
      TiTransform.attrData
      (TiTransform.v3StepOn "associatedGroupXid" "associatedGroups"
        TiTransform.agxData item)) "tag" = some (JValue.list l) := by
    rw [dictGet_v3StepOn_other _ _ _ _ _ (by decide) (by decide),
      dictGet_v3StepOn_other _ _ _ _ _ (by decide) (by decide)]
    exact h
  rw [TiTransform.v3_serialize, v3StepOn_fires _ _ _ _ _ h2 hne]
  constructor
  · rw [dictGet_v3StepOn_other _ _ _ _ _ (by decide) (by decide),
      dictGet_v3StepOn_other _ _ _ _ _ (by decide) (by decide),
      dictGet_dictDel, if_neg (by decide), dictGet_dictSet, if_pos rfl]
  · rw [dictGet_v3StepOn_other _ _ _ _ _ (by decide) (by decide),
      dictGet_v3StepOn_other _ _ _ _ _ (by decide) (by decide),
      dictGet_dictDel, if_pos rfl]

theorem dictGet_v3_serialize_label (item : TransformedItem)
    (l : List JValue) (hne : l ≠ [])
    (h : dictGet item "securityLabel" = some (JValue.list l)) :
    dictGet (TiTransform.v3_serialize item) "securityLabels" =
      some (TiTransform.slData l) ∧
    dictGet (TiTransform.v3_serialize item) "securityLabel" = none := by
  have h2 : dictGet (TiTransform.v3StepOn "tag" "tags"
      TiTransform.tagData
      (TiTransform.v3StepOn "attribute" "attributes"
        TiTransform.attrData
        (TiTransform.v3StepOn "associatedGroupXid" "associatedGroups"
          TiTransform.agxData item))) "securityLabel" =
      some (JValue.list l) := by
    rw [dictGet_v3StepOn_other _ _ _ _ _ (by decide) (by decide),
      dictGet_v3StepOn_other _ _ _ _ _ (by decide) (by decide),
      dictGet_v3StepOn_other _ _ _ _ _ (by decide) (by decide)]
    exact h
  rw [TiTransform.v3_serialize, v3StepOn_fires _ _ _ _ _ h2 hne]
  constructor
  · rw [dictGet_v3StepOn_other _ _ _ _ _ (by decide) (by decide),
      dictGet_dictDel, if_neg (by decide), dictGet_dictSet, if_pos rfl]
  · rw [dictGet_v3StepOn_other _ _ _ _ _ (by decide) (by decide),
      dictGet_dictDel, if_pos rfl]

theorem dictGet_v3_serialize_fo (item : TransformedItem)
    (l : List JValue) (hne : l ≠ [])
    (h : dictGet item "fileOccurrence" = some (JValue.list l)) :
    dictGet (TiTransform.v3_serialize item) "fileOccurrences" =
      some (TiTransform.foData l) ∧
    dictGet (TiTransform.v3_serialize item) "fileOccurrence" = none := by
  have h2 : dictGet (TiTransform.v3StepOn "securityLabel"
      "securityLabels" TiTransform.slData
      (TiTransform.v3StepOn "tag" "tags" TiTransform.tagData
        (TiTransform.v3StepOn "attribute" "attributes"
          TiTransform.attrData
          (TiTransform.v3StepOn "associatedGroupXid" "associatedGroups"
            TiTransform.agxData item)))) "fileOccurrence" =
      some (JValue.list l) := by
    rw [dictGet_v3StepOn_other _ _ _ _ _ (by decide) (by decide),
      dictGet_v3StepOn_other _ _ _ _ _ (by decide) (by decide),
      dictGet_v3StepOn_other _ _ _ _ _ (by decide) (by decide),
      dictGet_v3StepOn_other _ _ _ _ _ (by decide) (by decide)]
    exact h
  rw [TiTransform.v3_serialize, v3StepOn_fires _ _ _ _ _ h2 hne]
  constructor
  · rw [dictGet_dictDel, if_neg (by decide), dictGet_dictSet, if_pos rfl]
  · rw [dictGet_dictDel, if_pos rfl]

/-! ### Null-freedom lemmas for C3 -/

theorem noNullObj_eq_all (d : List (String × JValue)) :
    noNullObj d = d.all (fun kv => kv.2.noNull) := by
  induction d with
  | nil => rfl
  | cons kv kvs ih => rw [noNullObj, List.all_cons, ih]

theorem noNullList_eq_all (l : List JValue) :
    noNullList l = l.all JValue.noNull := by
  induction l with
  | nil => rfl
  | cons v vs ih => rw [noNullList, List.all_cons, ih]

theorem noNull_of_dictGet (d : JDict) (k : String) (v : JValue)
    (hd : itemNoNull d = true) (h : dictGet d k = some v) :
    v.noNull = true := by
  rw [dictGet] at h
  rw [Option.map_eq_some'] at h
  obtain ⟨kv, hfind, hv⟩ := h
  have hmem : kv ∈ d := List.mem_of_find?_eq_some hfind
  rw [itemNoNull, noNullObj_eq_all] at hd
  have := List.all_eq_true.mp hd kv hmem
  rw [← hv]
  exact this

theorem itemNoNull_dictSet (d : JDict) (k : String) (v : JValue)
    (hd : itemNoNull d = true) (hv : v.noNull = true) :
    itemNoNull (dictSet d k v) = true := by
  rw [itemNoNull, noNullObj_eq_all] at hd ⊢
  rw [dictSet]
  by_cases hany : d.any (fun kv => kv.1 == k)
  · rw [if_pos hany, List.all_map, List.all_eq_true]
    intro kv hmem
    by_cases hk : kv.1 == k
    · simp only [Function.comp_apply, hk, if_true]
      exact hv
    · simp only [Function.comp_apply, hk, Bool.false_eq_true, if_false]
      exact List.all_eq_true.mp hd kv hmem
  · rw [if_neg hany, List.all_append, hd]
    simpa using hv

theorem itemNoNull_setdefaultAppend (d : JDict) (k : String) (v : JValue)
    (hd : itemNoNull d = true) (hv : v.noNull = true) :
    itemNoNull (setdefaultAppend d k v) = true := by
  rw [setdefaultAppend]
  cases hg : dictGet d k with
  | none =>
      rw [itemNoNull, noNullObj_eq_all, List.all_append]
      rw [itemNoNull, noNullObj_eq_all] at hd
      rw [hd]
      simp only [Bool.true_and, List.all_cons, List.all_nil,
        Bool.and_true]
      show noNullList [v] = true
      rw [noNullList_eq_all]
      simpa using hv
  | some jv =>
      cases jv with
      | list l =>
          apply itemNoNull_dictSet d k _ hd
          have hl : noNullList l = true := noNull_of_dictGet d k _ hd hg
          show noNullList (l ++ [v]) = true
          rw [noNullList_eq_all, List.all_append]
          rw [noNullList_eq_all] at hl
          rw [hl]
          simpa using hv
      | str s => exact hd
      | int n => exact hd
      | bool b => exact hd
      | null => exact hd
      | obj o => exact hd

/-- C3 counterexample: two helpers on the claim's list violate it.
`add_file_occurrence` has no null guard — calling it with every argument
`None` is not a no-op: it appends an empty entry to the `fileOccurrence`
list.  And `add_associated_group` has no null guard either: called with
a `None` group xid (separate associations off, group kind) it appends a
null into the item's `associatedGroupXid` list. -/
theorem claimC3_counterexample :
    TiTransform.add_file_occurrence [] none none none =
      [("fileOccurrence", JValue.list [JValue.obj []])] ∧
    TiTransform.add_file_occurrence [] none none none ≠ [] ∧
    TiTransform.add_associated_group TransformKind.group false [] none =
      [("associatedGroupXid", JValue.list [JValue.null])] ∧
    itemNoNull (TiTransform.add_associated_group TransformKind.group
      false [] none) = false := by
  refine ⟨rfl, ?_, rfl, rfl⟩
  intro h
  rw [show TiTransform.add_file_occurrence [] none none none =
    [("fileOccurrence", JValue.list [JValue.obj []])] from rfl] at h
  exact List.noConfusion h

/-- C3 (amended): the helpers with a null guard — add_attribute, add_tag,
add_security_label, add_metadata, add_name, add_summary, add_confidence,
add_rating — are no-ops on null key/value arguments and, like
add_file_occurrence, never write a null value into the TransformedItem.
add_file_occurrence instead drops null fields but still appends a
(possibly empty) entry.  add_associated_group and
add_associated_indicator have no null guard at all: with non-null
arguments (and the item keys they copy present) they preserve
null-freedom, but with null arguments they DO write null values into the
item. -/
theorem claimC3_null_guards :
    (∀ (item : TransformedItem) (v : Option String) (d p : Bool)
      (s : Option String),
      TiTransform.add_attribute item none v d p s = item) ∧
    (∀ (item : TransformedItem) (t : Option String) (d p : Bool)
      (s : Option String),
      TiTransform.add_attribute item t none d p s = item) ∧
    (∀ item : TransformedItem, TiTransform.add_tag item none = item) ∧
    (∀ (item : TransformedItem) (c ds : Option String),
      TiTransform.add_security_label item none c ds = item) ∧
    (∀ (item : TransformedItem) (v : Option String),
      TiTransform.add_metadata item none v = item) ∧
    (∀ (item : TransformedItem) (k : Option String),
      TiTransform.add_metadata item k none = item) ∧
    (∀ item : TransformedItem, TiTransform.add_name item none = item) ∧
    (∀ item : TransformedItem, TiTransform.add_summary item none = item) ∧
    (∀ item : TransformedItem,
      TiTransform.add_confidence item none = item) ∧
    (∀ item : TransformedItem, TiTransform.add_rating item none = item) ∧
    (∀ item : TransformedItem,
      TiTransform.add_file_occurrence item none none none =
        setdefaultAppend item "fileOccurrence" (JValue.obj [])) ∧
    (∀ (item : TransformedItem) (t v : Option String) (d p : Bool)
      (s : Option String), itemNoNull item = true →
      itemNoNull (TiTransform.add_attribute item t v d p s) = true) ∧
    (∀ (item : TransformedItem) (n : Option String),
      itemNoNull item = true →
      itemNoNull (TiTransform.add_tag item n) = true) ∧
    (∀ (item : TransformedItem) (n c ds : Option String),
      itemNoNull item = true →
      itemNoNull (TiTransform.add_security_label item n c ds) = true) ∧
    (∀ (item : TransformedItem) (f pa dt : Option String),
      itemNoNull item = true →
      itemNoNull (TiTransform.add_file_occurrence item f pa dt) = true) ∧
    (∀ (item : TransformedItem) (k v : Option String),
      itemNoNull item = true →
      itemNoNull (TiTransform.add_metadata item k v) = true) ∧
    (∀ (item : TransformedItem) (n : Option String),
      itemNoNull item = true →
      itemNoNull (TiTransform.add_name item n) = true) ∧
    (∀ (item : TransformedItem) (v : Option String),
      itemNoNull item = true →
      itemNoNull (TiTransform.add_summary item v) = true) ∧
    (∀ (item : TransformedItem) (c : Option Int),
      itemNoNull item = true →
      itemNoNull (TiTransform.add_confidence item c) = true) ∧
    (∀ (item : TransformedItem) (r : Option Int),
      itemNoNull item = true →
      itemNoNull (TiTransform.add_rating item r) = true) ∧
    (∀ (item : TransformedItem) (kind : TransformKind) (sep : Bool)
      (gx xid smy ty : String), itemNoNull item = true →
      dictGet item "xid" = some (JValue.str xid) →
      dictGet item "summary" = some (JValue.str smy) →
      dictGet item "type" = some (JValue.str ty) →
      itemNoNull
        (TiTransform.add_associated_group kind sep item (some gx)) =
        true) ∧
    (∀ (item : TransformedItem) (sep : Bool) (smy ity xid : String),
      itemNoNull item = true →
      dictGet item "xid" = some (JValue.str xid) →
      itemNoNull
        (TiTransform.add_associated_indicator sep item (some smy)
          (some ity)) = true) ∧
    (∀ item : TransformedItem,
      dictGet item "associatedGroupXid" = none →
      itemNoNull
        (TiTransform.add_associated_group TransformKind.group false item
          none) = false) ∧
    (∀ item : TransformedItem,
      dictGet item "associatedIndicators" = none →
      itemNoNull
        (TiTransform.add_associated_indicator false item none none) =
        false) := by
  refine ⟨fun item v d p s => rfl, fun item t d p s => ?_,
    fun item => rfl, fun item c ds => rfl, fun item v => rfl,
    fun item k => ?_, fun item => rfl, fun item => rfl, fun item => rfl,
    fun item => rfl, fun item => rfl, ?_, ?_, ?_, ?_, ?_, ?_, ?_, ?_, ?_,
    ?_, ?_, ?_, ?_⟩
  · cases t <;> rfl
  · cases k <;> rfl
  · intro item t v d p s hd
    cases t with
    | none => exact hd
    | some t =>
        cases v with
        | none => exact hd
        | some v =>
            apply itemNoNull_setdefaultAppend _ _ _ hd
            show noNullObj (TiTransform.attribute_data t v d p s) = true
            cases d <;> cases p <;> cases s <;> rfl
  · intro item n hd
    cases n with
    | none => exact hd
    | some n => exact itemNoNull_setdefaultAppend _ _ _ hd rfl
  · intro item n c ds hd
    cases n with
    | none => exact hd
    | some n =>
        apply itemNoNull_setdefaultAppend _ _ _ hd
        show noNullObj (TiTransform.label_data n c ds) = true
        cases c <;> cases ds <;> rfl
  · intro item f pa dt hd
    apply itemNoNull_setdefaultAppend _ _ _ hd
    show noNullObj
      ((if truthyStr f then [("fileName", JValue.str (f.getD ""))] else [])
        ++ (if truthyStr pa then [("path", JValue.str (pa.getD ""))] else [])
        ++ (if truthyStr dt then [("date", JValue.str (dt.getD ""))] else []))
      = true
    split_ifs <;> rfl
  · intro item k v hd
    cases k with
    | none => exact hd
    | some k =>
        cases v with
        | none => exact hd
        | some v =>
            rw [TiTransform.add_metadata]
            by_cases hkv : k ≠ "" ∧ v ≠ ""
            · rw [if_pos hkv]
              exact itemNoNull_dictSet _ _ _ hd rfl
            · rw [if_neg hkv]
              exact hd
  · intro item n hd
    cases n with
    | none => exact hd
    | some n => exact itemNoNull_dictSet _ _ _ hd rfl
  · intro item v hd
    cases v with
    | none => exact hd
    | some v => exact itemNoNull_dictSet _ _ _ hd rfl
  · intro item c hd
    cases c with
    | none => exact hd
    | some c => exact itemNoNull_dictSet _ _ _ hd rfl
  · intro item r hd
    cases r with
    | none => exact hd
    | some r => exact itemNoNull_dictSet _ _ _ hd rfl
  · intro item kind sep gx xid smy ty hd hx hsm hty
    cases sep with
    | false =>
        cases kind with
        | group =>
            show itemNoNull (setdefaultAppend item "associatedGroupXid"
              (JValue.str gx)) = true
            exact itemNoNull_setdefaultAppend _ _ _ hd rfl
        | indicator =>
            show itemNoNull (setdefaultAppend item "associatedGroups"
              (JValue.obj [("groupXid", JValue.str gx)])) = true
            exact itemNoNull_setdefaultAppend _ _ _ hd rfl
    | true =>
        cases kind with
        | group =>
            have he : TiTransform.add_associated_group
                TransformKind.group true item (some gx) =
              setdefaultAppend item "association"
                (JValue.obj [("ref_1", JValue.str gx),
                  ("ref_2", JValue.str xid)]) := by
              rw [TiTransform.add_associated_group]
              simp [hx, optStr]
            rw [he]
            exact itemNoNull_setdefaultAppend _ _ _ hd rfl
        | indicator =>
            have he : TiTransform.add_associated_group
                TransformKind.indicator true item (some gx) =
              setdefaultAppend item "association"
                (JValue.obj [("ref_1", JValue.str gx),
                  ("ref_2", JValue.str smy),
                  ("type_2", JValue.str ty)]) := by
              rw [TiTransform.add_associated_group]
              simp [hsm, hty, optStr]
            rw [he]
            exact itemNoNull_setdefaultAppend _ _ _ hd rfl
  · intro item sep smy ity xid hd hx
    cases sep with
    | false =>
        show itemNoNull (setdefaultAppend item "associatedIndicators"
          (JValue.obj [("summary", JValue.str smy),
            ("indicatorType", JValue.str ity)])) = true
        exact itemNoNull_setdefaultAppend _ _ _ hd rfl
    | true =>
        have he : TiTransform.add_associated_indicator true item
            (some smy) (some ity) =
          setdefaultAppend item "association"
            (JValue.obj [("ref_1", JValue.str xid),
              ("ref_2", JValue.str smy),
              ("type_2", JValue.str ity)]) := by
          rw [TiTransform.add_associated_indicator]
          simp [hx, optStr]
        rw [he]
        exact itemNoNull_setdefaultAppend _ _ _ hd rfl
  · intro item h
    show itemNoNull (setdefaultAppend item "associatedGroupXid"
      (optStr none)) = false
    rw [setdefaultAppend, h, itemNoNull, noNullObj_eq_all,
      List.all_append]
    rw [show ([("associatedGroupXid", JValue.list [optStr none])].all
      (fun kv => kv.2.noNull)) = false from rfl]
    rw [Bool.and_false]
  · intro item h
    show itemNoNull (setdefaultAppend item "associatedIndicators"
      (JValue.obj [("summary", optStr none),
        ("indicatorType", optStr none)])) = false
    rw [setdefaultAppend, h, itemNoNull, noNullObj_eq_all,
      List.all_append]
    rw [show ([("associatedIndicators", JValue.list [JValue.obj
      [("summary", optStr none), ("indicatorType", optStr none)]])].all
      (fun kv => kv.2.noNull)) = false from rfl]
    rw [Bool.and_false]

/-- Witness for C3 at concrete items, discharging the null-freedom and
key-presence hypotheses. -/
theorem claimC3_witness :
    itemNoNull (TiTransform.add_attribute
      ([("summary", JValue.str "1.2.3.4")]) (some "Source") (some "osint")
      false true none) = true ∧
    itemNoNull (TiTransform.add_associated_group TransformKind.indicator
      true
      [("xid", JValue.str "x1"), ("summary", JValue.str "1.2.3.4"),
       ("type", JValue.str "Address")] (some "g1")) = true ∧
    TiTransform.add_tag [("summary", JValue.str "1.2.3.4")] none =
      [("summary", JValue.str "1.2.3.4")] ∧
    itemNoNull (TiTransform.add_associated_group TransformKind.group
      false [("summary", JValue.str "1.2.3.4")] none) = false := by
  refine ⟨?_, ?_, ?_, ?_⟩
  · exact claimC3_null_guards.2.2.2.2.2.2.2.2.2.2.2.1
      [("summary", JValue.str "1.2.3.4")] (some "Source") (some "osint")
      false true none rfl
  · exact claimC3_null_guards.2.2.2.2.2.2.2.2.2.2.2.2.2.2.2.2.2.2.2.2.1
      [("xid", JValue.str "x1"), ("summary", JValue.str "1.2.3.4"),
       ("type", JValue.str "Address")] TransformKind.indicator true
      "g1" "x1" "1.2.3.4" "Address" rfl rfl rfl rfl
  · exact claimC3_null_guards.2.2.1 [("summary", JValue.str "1.2.3.4")]
  · exact claimC3_null_guards.2.2.2.2.2.2.2.2.2.2.2.2.2.2.2.2.2.2.2.2.2.2.1
      [("summary", JValue.str "1.2.3.4")] rfl

/-- C5: for every TransformedItem (with the distinct keys every
dict-backed item has), each of the four sub-entity collections carries
the same content in the batch serialization (`dict(sorted(...))`, flat
list under the singular key) and in the v3 serialization (pluralized key
wrapping `{data: [...]}`): the entries correspond one to one in order
with equal `type`/`value` (attributes), `name` (tags),
`name`/`color`/`description` (security labels) and
`fileName`/`path`/`date` (file occurrences) under `.get` semantics, the
singular key is gone from the v3 output, and the attribute `displayed`
sub-field is absent from every v3 attribute entry. -/
theorem claimC5_batch_v3_content (item : TransformedItem)
    (hnd : (item.map Prod.fst).Nodup) :
    (∀ l, dictGet (TiTransform.batch_serialize item) "attribute" =
        some (JValue.list l) → l ≠ [] →
      dictGet (TiTransform.v3_serialize item) "attributes" =
        some (JValue.obj
          [("data", JValue.list (l.map TiTransform.v3AttrEntry))]) ∧
      dictGet (TiTransform.v3_serialize item) "attribute" = none ∧
      (l.map TiTransform.v3AttrEntry).map attrContent =
        l.map attrContent ∧
      ∀ e ∈ l.map TiTransform.v3AttrEntry,
        TiTransform.objGet e "displayed" = none) ∧
    (∀ l, dictGet (TiTransform.batch_serialize item) "tag" =
        some (JValue.list l) → l ≠ [] →
      dictGet (TiTransform.v3_serialize item) "tags" =
        some (JValue.obj
          [("data", JValue.list (l.map TiTransform.v3TagEntry))]) ∧
      dictGet (TiTransform.v3_serialize item) "tag" = none ∧
      (l.map TiTransform.v3TagEntry).map tagContent =
        l.map tagContent) ∧
    (∀ l, dictGet (TiTransform.batch_serialize item) "securityLabel" =
        some (JValue.list l) → l ≠ [] →
      dictGet (TiTransform.v3_serialize item) "securityLabels" =
        some (JValue.obj
          [("data", JValue.list (l.map TiTransform.v3LabelEntry))]) ∧
      dictGet (TiTransform.v3_serialize item) "securityLabel" = none ∧
      (l.map TiTransform.v3LabelEntry).map labelContent =
        l.map labelContent) ∧
    (∀ l, dictGet (TiTransform.batch_serialize item) "fileOccurrence" =
        some (JValue.list l) → l ≠ [] →
      dictGet (TiTransform.v3_serialize item) "fileOccurrences" =
        some (JValue.obj
          [("data", JValue.list (l.map TiTransform.v3FoEntry))]) ∧
      dictGet (TiTransform.v3_serialize item) "fileOccurrence" = none ∧
      (l.map TiTransform.v3FoEntry).map foContent =
        l.map foContent) := by
  refine ⟨?_, ?_, ?_, ?_⟩
  · intro l hb hne
    rw [TiTransform.batch_serialize,
      dictGet_sortByKey item "attribute" hnd] at hb
    obtain ⟨hA, hB⟩ := dictGet_v3_serialize_attr item l hne hb
    refine ⟨hA, hB, ?_, ?_⟩
    · rw [List.map_map]
      exact List.map_congr_left (fun a _ => rfl)
    · intro e he
      rw [List.mem_map] at he
      obtain ⟨a, _, rfl⟩ := he
      rfl
  · intro l hb hne
    rw [TiTransform.batch_serialize,
      dictGet_sortByKey item "tag" hnd] at hb
    obtain ⟨hA, hB⟩ := dictGet_v3_serialize_tag item l hne hb
    refine ⟨hA, hB, ?_⟩
    rw [List.map_map]
    exact List.map_congr_left (fun a _ => rfl)
  · intro l hb hne
    rw [TiTransform.batch_serialize,
      dictGet_sortByKey item "securityLabel" hnd] at hb
    obtain ⟨hA, hB⟩ := dictGet_v3_serialize_label item l hne hb
    refine ⟨hA, hB, ?_⟩
    rw [List.map_map]
    exact List.map_congr_left (fun a _ => rfl)
  · intro l hb hne
    rw [TiTransform.batch_serialize,
      dictGet_sortByKey item "fileOccurrence" hnd] at hb
    obtain ⟨hA, hB⟩ := dictGet_v3_serialize_fo item l hne hb
    refine ⟨hA, hB, ?_⟩
    rw [List.map_map]
    exact List.map_congr_left (fun a _ => rfl)

/-- Witness for C5 on `sampleItem`. -/
theorem claimC5_witness :
    (dictGet (TiTransform.v3_serialize sampleItem) "attributes" =
      some (JValue.obj [("data", JValue.list
        ([JValue.obj [("type", JValue.str "Source"),
          ("value", JValue.str "osint"),
          ("displayed", JValue.bool true)]].map
          TiTransform.v3AttrEntry))]) ∧
    dictGet (TiTransform.v3_serialize sampleItem) "attribute" = none ∧
    ([JValue.obj [("type", JValue.str "Source"),
      ("value", JValue.str "osint"),
      ("displayed", JValue.bool true)]].map
        TiTransform.v3AttrEntry).map attrContent =
      [JValue.obj [("type", JValue.str "Source"),
        ("value", JValue.str "osint"),
        ("displayed", JValue.bool true)]].map attrContent ∧
    (∀ e ∈ [JValue.obj [("type", JValue.str "Source"),
        ("value", JValue.str "osint"),
        ("displayed", JValue.bool true)]].map TiTransform.v3AttrEntry,
      TiTransform.objGet e "displayed" = none)) ∧
    (dictGet (TiTransform.v3_serialize sampleItem) "securityLabels" =
      some (JValue.obj [("data", JValue.list
        ([JValue.obj [("name", JValue.str "TLP:GREEN"),
          ("color", JValue.str "green")]].map
          TiTransform.v3LabelEntry))]) ∧
    dictGet (TiTransform.v3_serialize sampleItem) "securityLabel" =
      none ∧
    ([JValue.obj [("name", JValue.str "TLP:GREEN"),
      ("color", JValue.str "green")]].map
        TiTransform.v3LabelEntry).map labelContent =
      [JValue.obj [("name", JValue.str "TLP:GREEN"),
        ("color", JValue.str "green")]].map labelContent) := by
  have h := claimC5_batch_v3_content sampleItem (by decide)
  exact ⟨h.1 _ rfl (List.cons_ne_nil _ _),
    h.2.2.1 _ rfl (List.cons_ne_nil _ _)⟩

/-- C6 counterexample: the claim says EVERY `add_associated_group` call
under `separate_batch_associations=true` appends an entry of shape
`{ref_1: group_xid, ref_2: xid}`, but when the selected transform is an
`IndicatorTransformModel` the code appends
`{ref_1: group_xid, ref_2: summary, type_2: type}` instead. -/
theorem claimC6_counterexample :
    ¬ (TiTransform.add_associated_group TransformKind.indicator true
        [("type", JValue.str "Address"), ("summary", JValue.str "1.2.3.4"),
         ("xid", JValue.str "xid-1")] (some "g-1") =
      setdefaultAppend
        [("type", JValue.str "Address"), ("summary", JValue.str "1.2.3.4"),
         ("xid", JValue.str "xid-1")] "association"
        (JValue.obj [("ref_1", JValue.str "g-1"),
          ("ref_2", JValue.str "xid-1")])) := by
  intro h
  have h2 : (some (JValue.list [JValue.obj
        [("ref_1", JValue.str "g-1"), ("ref_2", JValue.str "1.2.3.4"),
         ("type_2", JValue.str "Address")]]) : Option JValue) =
      some (JValue.list [JValue.obj
        [("ref_1", JValue.str "g-1"), ("ref_2", JValue.str "xid-1")]]) :=
    congrArg (fun d => dictGet d "association") h
  simp at h2

/-- C6 (amended): with `separate_batch_associations=true`,
`add_associated_group` on a group-kind record appends
`{ref_1: group_xid, ref_2: xid}` to the `association` list; on an
indicator-kind record it appends
`{ref_1: group_xid, ref_2: summary, type_2: type}`.  In both cases the
`associatedGroupXid` and `associatedGroups` keys of the record are left
untouched, and the batch loop moves the `association` entries of the
record into the top-level `association` bucket. -/
theorem claimC6_separate_associations :
    (∀ (item : TransformedItem) (gx xid : String),
      dictGet item "xid" = some (JValue.str xid) →
      TiTransform.add_associated_group TransformKind.group true item
          (some gx) =
        setdefaultAppend item "association"
          (JValue.obj [("ref_1", JValue.str gx),
            ("ref_2", JValue.str xid)]) ∧
      dictGet (TiTransform.add_associated_group TransformKind.group true
          item (some gx)) "associatedGroupXid" =
        dictGet item "associatedGroupXid" ∧
      dictGet (TiTransform.add_associated_group TransformKind.group true
          item (some gx)) "associatedGroups" =
        dictGet item "associatedGroups") ∧
    (∀ (item : TransformedItem) (gx s ty : String),
      dictGet item "summary" = some (JValue.str s) →
      dictGet item "type" = some (JValue.str ty) →
      TiTransform.add_associated_group TransformKind.indicator true item
          (some gx) =
        setdefaultAppend item "association"
          (JValue.obj [("ref_1", JValue.str gx),
            ("ref_2", JValue.str s), ("type_2", JValue.str ty)]) ∧
      dictGet (TiTransform.add_associated_group TransformKind.indicator
          true item (some gx)) "associatedGroupXid" =
        dictGet item "associatedGroupXid" ∧
      dictGet (TiTransform.add_associated_group TransformKind.indicator
          true item (some gx)) "associatedGroups" =
        dictGet item "associatedGroups") ∧
    (∀ (g i a assoc : List JValue) (kind : TransformKind)
      (data : TransformedItem) (aG aI : List JValue),
      dictGet data "association" = some (JValue.list assoc) →
      dictGet (TiTransforms.batchStepOk true
          [("group", JValue.list g), ("indicator", JValue.list i),
           ("association", JValue.list a)] kind data aG aI)
          "association" =
        some (JValue.list (a ++ assoc))) := by
  refine ⟨?_, ?_, ?_⟩
  · intro item gx xid hx
    have he : TiTransform.add_associated_group TransformKind.group true
        item (some gx) =
      setdefaultAppend item "association"
        (JValue.obj [("ref_1", JValue.str gx),
          ("ref_2", JValue.str xid)]) := by
      rw [TiTransform.add_associated_group]
      simp [hx, optStr]
    refine ⟨he, ?_, ?_⟩ <;>
      rw [he, dictGet_setdefaultAppend] <;> simp
  · intro item gx s ty hs hty
    have he : TiTransform.add_associated_group TransformKind.indicator
        true item (some gx) =
      setdefaultAppend item "association"
        (JValue.obj [("ref_1", JValue.str gx),
          ("ref_2", JValue.str s), ("type_2", JValue.str ty)]) := by
      rw [TiTransform.add_associated_group]
      simp [hs, hty, optStr]
    refine ⟨he, ?_, ?_⟩ <;>
      rw [he, dictGet_setdefaultAppend] <;> simp
  · intro g i a assoc kind data aG aI hassoc
    simp only [TiTransforms.batchStepOk, if_true, hassoc]
    rw [dictGet_setdefaultExtend]
    simp only [String.reduceEq, if_false]
    cases kind with
    | group =>
        rw [dictGet_setdefaultExtend]
        simp only [String.reduceEq, if_false]
        rw [dictGet_setdefaultExtend]
        simp only [String.reduceEq, if_false]
        rw [dictGet_setdefaultExtend]
        simp [dictGet_cons]
    | indicator =>
        rw [dictGet_setdefaultExtend]
        simp only [String.reduceEq, if_false]
        rw [dictGet_setdefaultExtend]
        simp only [String.reduceEq, if_false]
        rw [dictGet_setdefaultExtend]
        simp [dictGet_cons]

/-- Witness for C6 at a concrete item of each kind. -/
theorem claimC6_witness :
    TiTransform.add_associated_group TransformKind.group true
        [("xid", JValue.str "x-9")] (some "g-7") =
      setdefaultAppend [("xid", JValue.str "x-9")] "association"
        (JValue.obj [("ref_1", JValue.str "g-7"),
          ("ref_2", JValue.str "x-9")]) ∧
    TiTransform.add_associated_group TransformKind.indicator true
        [("type", JValue.str "Address"), ("summary", JValue.str "1.2.3.4")]
        (some "g-7") =
      setdefaultAppend
        [("type", JValue.str "Address"), ("summary", JValue.str "1.2.3.4")]
        "association"
        (JValue.obj [("ref_1", JValue.str "g-7"),
          ("ref_2", JValue.str "1.2.3.4"),
          ("type_2", JValue.str "Address")]) ∧
    dictGet (TiTransforms.batchStepOk true
        [("group", JValue.list []), ("indicator", JValue.list []),
         ("association", JValue.list [])] TransformKind.group
        [("association", JValue.list [JValue.str "e1"])] [] [])
        "association" =
      some (JValue.list [JValue.str "e1"]) := by
  refine ⟨?_, ?_, ?_⟩
  · exact ((claimC6_separate_associations.1) [("xid", JValue.str "x-9")]
      "g-7" "x-9" rfl).1
  · exact ((claimC6_separate_associations.2.1)
      [("type", JValue.str "Address"), ("summary", JValue.str "1.2.3.4")]
      "g-7" "1.2.3.4" "Address" rfl rfl).1
  · exact (claimC6_separate_associations.2.2) [] [] []
      [JValue.str "e1"] TransformKind.group
      [("association", JValue.list [JValue.str "e1"])] [] [] rfl

/-- C9: when `associatedGroupXid` holds a non-empty list, the v3
serialization emits `associatedGroups = {data: [{xid: <last element>}]}`
— the dict comprehension `{'xid': g for g in ...}` rebinds one key, so
only the last xid survives, in a one-element list — removes the
`associatedGroupXid` key, and (second part, for a record of the usual
`type`/`summary` shape) none of the dropped first n-1 xids appears
anywhere in the v3 output when they differ from the surviving strings. -/
theorem claimC9_v3_keeps_only_last_xid :
    (∀ (item : TransformedItem) (xs : List JValue) (x : JValue),
      dictGet item "associatedGroupXid" = some (JValue.list xs) →
      xs.getLast? = some x →
      dictGet (TiTransform.v3_serialize item) "associatedGroups" =
        some (JValue.obj
          [("data", JValue.list [JValue.obj [("xid", x)]])]) ∧
      dictGet (TiTransform.v3_serialize item) "associatedGroupXid" =
        none) ∧
    (∀ (ty s : String) (xs : List String) (hne : xs ≠ []) (x : String),
      x ∈ xs.dropLast → x ≠ ty → x ≠ s → x ≠ xs.getLast hne →
      itemHasStr x (TiTransform.v3_serialize
        [("type", JValue.str ty), ("summary", JValue.str s),
         ("associatedGroupXid", JValue.list (xs.map JValue.str))]) =
        false) := by
  constructor
  · intro item xs x hget hlast
    have hne : xs ≠ [] := by
      intro h
      rw [h] at hlast
      exact Option.noConfusion hlast
    have hfix : TiTransform.v3_serialize item =
        TiTransform.v3StepOn "fileOccurrence" "fileOccurrences"
          TiTransform.foData
          (TiTransform.v3StepOn "securityLabel" "securityLabels"
            TiTransform.slData
            (TiTransform.v3StepOn "tag" "tags" TiTransform.tagData
              (TiTransform.v3StepOn "attribute" "attributes"
                TiTransform.attrData
                (dictDel
                  (dictSet item "associatedGroups" (TiTransform.agxData xs))
                  "associatedGroupXid")))) := by
      rw [TiTransform.v3_serialize, v3StepOn_fires _ _ _ _ _ hget hne]
    constructor
    · rw [hfix]
      rw [dictGet_v3StepOn_other _ _ _ _ _ (by decide) (by decide)]
      rw [dictGet_v3StepOn_other _ _ _ _ _ (by decide) (by decide)]
      rw [dictGet_v3StepOn_other _ _ _ _ _ (by decide) (by decide)]
      rw [dictGet_v3StepOn_other _ _ _ _ _ (by decide) (by decide)]
      rw [dictGet_dictDel, if_neg (by decide), dictGet_dictSet, if_pos rfl]
      rw [TiTransform.agxData, hlast]
    · rw [hfix]
      rw [dictGet_v3StepOn_other _ _ _ _ _ (by decide) (by decide)]
      rw [dictGet_v3StepOn_other _ _ _ _ _ (by decide) (by decide)]
      rw [dictGet_v3StepOn_other _ _ _ _ _ (by decide) (by decide)]
      rw [dictGet_v3StepOn_other _ _ _ _ _ (by decide) (by decide)]
      rw [dictGet_dictDel, if_pos rfl]
  · intro ty s xs hne x hmem hty hs hlast
    have hget : dictGet
        [("type", JValue.str ty), ("summary", JValue.str s),
         ("associatedGroupXid", JValue.list (xs.map JValue.str))]
        "associatedGroupXid" = some (JValue.list (xs.map JValue.str)) :=
      rfl
    have hmapne : xs.map JValue.str ≠ [] := by simpa using hne
    have hlastmap : (xs.map JValue.str).getLast? =
        some (JValue.str (xs.getLast hne)) := by
      rw [List.getLast?_map, List.getLast?_eq_getLast xs hne]
      rfl
    have hv3 : TiTransform.v3_serialize
        [("type", JValue.str ty), ("summary", JValue.str s),
         ("associatedGroupXid", JValue.list (xs.map JValue.str))] =
        [("type", JValue.str ty), ("summary", JValue.str s),
         ("associatedGroups", JValue.obj [("data", JValue.list
           [JValue.obj [("xid", JValue.str (xs.getLast hne))]])])] := by
      rw [TiTransform.v3_serialize, v3StepOn_fires _ _ _ _ _ hget hmapne]
      rw [show dictDel
          (dictSet
            [("type", JValue.str ty), ("summary", JValue.str s),
             ("associatedGroupXid", JValue.list (xs.map JValue.str))]
            "associatedGroups"
            (TiTransform.agxData (xs.map JValue.str)))
          "associatedGroupXid" =
        [("type", JValue.str ty), ("summary", JValue.str s),
         ("associatedGroups", TiTransform.agxData (xs.map JValue.str))]
        from rfl]
      rw [TiTransform.agxData, hlastmap]
      rfl
    rw [hv3]
    simp [itemHasStr, hasStrObj, JValue.hasStr, hasStrList,
      Ne.symm hty, Ne.symm hs, Ne.symm hlast]

/-- Witness for C9 at a concrete three-xid record. -/
theorem claimC9_witness :
    dictGet (TiTransform.v3_serialize
        [("type", JValue.str "Adversary"), ("summary", JValue.str "acme"),
         ("associatedGroupXid",
          JValue.list [JValue.str "x1", JValue.str "x2",
            JValue.str "x3"])]) "associatedGroups" =
      some (JValue.obj
        [("data", JValue.list
          [JValue.obj [("xid", JValue.str "x3")]])]) ∧
    itemHasStr "x1" (TiTransform.v3_serialize
        [("type", JValue.str "Adversary"), ("summary", JValue.str "acme"),
         ("associatedGroupXid",
          JValue.list
            (["x1", "x2", "x3"].map JValue.str))]) = false := by
  constructor
  · exact (claimC9_v3_keeps_only_last_xid.1
      [("type", JValue.str "Adversary"), ("summary", JValue.str "acme"),
       ("associatedGroupXid",
        JValue.list [JValue.str "x1", JValue.str "x2", JValue.str "x3"])]
      [JValue.str "x1", JValue.str "x2", JValue.str "x3"]
      (JValue.str "x3") rfl rfl).1
  · exact claimC9_v3_keeps_only_last_xid.2 "Adversary" "acme"
      ["x1", "x2", "x3"] (by decide) "x1" (by decide) (by decide)
      (by decide) (by decide)

/-- C10: when `pinned=True`, `add_attribute` stores the `pinned` field
from the `displayed` argument (`attribute_data['pinned'] = displayed`),
so `pinned=True, displayed=False` stores `pinned: False`; when
`pinned` is not `True` no `pinned` field is stored at all. -/
theorem claimC10_pinned_stores_displayed (item : TransformedItem)
    (t v : String) (displayed : Bool) (source : Option String) :
    TiTransform.add_attribute item (some t) (some v) displayed true source =
      setdefaultAppend item "attribute"
        (JValue.obj (TiTransform.attribute_data t v displayed true source)) ∧
    dictGet (TiTransform.attribute_data t v displayed true source)
        "pinned" = some (JValue.bool displayed) ∧
    dictGet (TiTransform.attribute_data t v displayed false source)
        "pinned" = none := by
  refine ⟨rfl, ?_, ?_⟩ <;> cases displayed <;> cases source <;> rfl

end TcEx
